import Mathlib

/-!
Shallow embedding of `video_generator.py`, a linear pipeline that, per
scene-set JSON file: downloads stock images per scene, synthesizes one
narration audio for the concatenated script, splits the audio duration
across scenes proportionally to word count, builds per-scene image
slideshows with caption overlays, concatenates them over a looping
background video, exports an MP4, and removes the temporary directories.

Numeric durations are modelled as exact rationals (`ℚ`); Python
exceptions are modelled with `Except String`; filesystem listings are
explicit lists of names.  Python string operations used by the script
(`str.split()`, `str.lower()`, `str.endswith`, `sorted`) are embedded as
executable functions over character lists.
-/

set_option linter.unusedVariables false

deriving instance DecidableEq for Except

/-- Discriminator for `Except`: `true` on `ok`, `false` on `error`
(an `error` models a raised Python exception). -/
def exceptIsOk {α : Type} : Except String α → Bool
  | .ok _ => true
  | .error _ => false

/-- Helper for `pySplit`: walks the character list accumulating the current
word (reversed); whitespace ends the current word, runs of whitespace
produce no empty words.  This is the semantics of Python `str.split()`
with no separator argument. -/
def words_aux : List Char → List Char → List String
  | [], acc => if acc = [] then [] else [String.mk acc.reverse]
  | c :: cs, acc =>
    if c.isWhitespace then
      (if acc = [] then words_aux cs [] else String.mk acc.reverse :: words_aux cs [])
    else
      words_aux cs (c :: acc)

/-- Python `text.split()` (no argument): split on whitespace runs, with no
empty words; `"".split()` is `[]`. -/
def pySplit (s : String) : List String := words_aux s.toList []

/-- Python `str.lower()` restricted to ASCII letters, which is all the
script ever lowercases (filename extensions). -/
def lowerChar (c : Char) : Char :=
  if 'A' ≤ c && c ≤ 'Z' then Char.ofNat (c.toNat + 32) else c

/-- Suffix test on character lists, the semantics of `str.endswith`. -/
def endsWithChars (s suf : List Char) : Bool :=
  decide (suf.length ≤ s.length) && decide (s.drop (s.length - suf.length) = suf)

/-- Embeds the image-extension test of the scene-clips loop: lowercase the
filename and accept the jpg, jpeg, and png suffixes. -/
def isImageFile (f : String) : Bool :=
  let l := f.toList.map lowerChar
  endsWithChars l ".jpg".toList || endsWithChars l ".jpeg".toList ||
    endsWithChars l ".png".toList

/-- Byte-order comparison on strings (ASCII-faithful), used to embed
Python `sorted` over filenames. -/
def charListLe : List Char → List Char → Bool
  | [], _ => true
  | _ :: _, [] => false
  | a :: as, b :: bs =>
    if a.toNat < b.toNat then true
    else if b.toNat < a.toNat then false
    else charListLe as bs

/-- Ordering on strings for `pySorted`. -/
def pyStrLe (a b : String) : Bool := charListLe a.toList b.toList

/-- Insert a string into an already sorted list. -/
def insertSorted (x : String) : List String → List String
  | [] => [x]
  | y :: ys => if pyStrLe x y then x :: y :: ys else y :: insertSorted x ys

/-- Python `sorted` on a list of strings (insertion sort; the script only
uses membership and length of the result, which are order-independent). -/
def pySorted (l : List String) : List String := l.foldr insertSorted []

/-- A scene record with text, image_keyword and subtitle fields, loaded
from the scene JSON file. -/
structure Scene where
  text : String
  image_keyword : String
  subtitle : String
deriving DecidableEq, Repr

/-- Configuration constant IMAGE_COUNT_PER_SCENE = 2 of the script. -/
def IMAGE_COUNT_PER_SCENE : Nat := 2

/-- A photo entry of the Pexels search response: the portrait and original
fields of the src map, either possibly absent. -/
structure Photo where
  portrait : Option String
  original : Option String
deriving DecidableEq, Repr

/-- Embeds the image-url selection of a photo: the portrait source when
present and nonempty, otherwise the original source (Python or also
falls through on an empty, falsy string). -/
def photo_image_url (p : Photo) : Option String :=
  match p.portrait with
  | some s => if s = "" then p.original else some s
  | none => p.original

/-- Observable outcome of `download_images`: the log lines printed and the
image files written into the scene directory. -/
structure DownloadResult where
  logs : List String
  files : List String
deriving DecidableEq, Repr

/-- The download loop over the enumerated, truncated photo list: writes
imgN.jpg for the N-th photo (1-based); a photo with no usable url makes
requests.get raise. -/
def download_loop : Nat → List Photo → Except String (List String)
  | _, [] => Except.ok []
  | i, p :: ps =>
    match photo_image_url p with
    | none => Except.error "requests.get: url is None"
    | some _ =>
      match download_loop (i + 1) ps with
      | .error e => .error e
      | .ok rest => .ok (("img" ++ toString (i + 1) ++ ".jpg") :: rest)

/-- Embeds `download_images` given the parsed photo list of the search
response: an empty list is logged and skipped (no file written, no
exception, no retry); otherwise at most `IMAGE_COUNT_PER_SCENE` photos
are fetched and written. -/
def download_images (query : String) (photos : List Photo) : Except String DownloadResult :=
  if photos = [] then
    Except.ok { logs := ["No images found for: " ++ query], files := [] }
  else
    match download_loop 0 (photos.take IMAGE_COUNT_PER_SCENE) with
    | .error e => .error e
    | .ok fs =>
      Except.ok
        { logs := ["Downloaded " ++ toString photos.length ++ " images for " ++ query]
          files := fs }

/-- Result reason of an Azure speech-synthesis call (the constructors the
script can observe). -/
inductive ResultReason where
  | SynthesizingAudioCompleted
  | SynthesizingAudioStarted
  | Canceled
deriving DecidableEq, Repr

/-- Printable name of a result reason, for the exception message. -/
def ResultReason.describe : ResultReason → String
  | .SynthesizingAudioCompleted => "SynthesizingAudioCompleted"
  | .SynthesizingAudioStarted => "SynthesizingAudioStarted"
  | .Canceled => "Canceled"

/-- Embeds `generate_tts`, abstracted over the reason the synthesizer
returned: any reason other than `SynthesizingAudioCompleted` raises a
TTS-failed exception naming the reason; otherwise the function returns
normally. -/
def generate_tts (reason : ResultReason) : Except String Unit :=
  if reason ≠ ResultReason.SynthesizingAudioCompleted then
    Except.error ("TTS failed: " ++ reason.describe)
  else
    Except.ok ()

/-- Embeds the comprehension collecting the text of each scene. -/
def scene_texts (scenes : List Scene) : List String := scenes.map Scene.text

/-- Embeds the comprehension of per-text word counts. -/
def scene_word_counts (scenes : List Scene) : List Nat :=
  (scene_texts scenes).map (fun t => (pySplit t).length)

/-- Embeds the sum of the per-scene word counts. -/
def total_words (scenes : List Scene) : Nat := (scene_word_counts scenes).sum

/-- The comprehension
`[(count / total_words) * total_audio_duration for count in scene_word_counts]`:
each element divides by `total_words`, so with a zero total the first
element raises `ZeroDivisionError`; over the empty list no division is
ever evaluated. -/
def allocate (W : Nat) (D : ℚ) : List Nat → Except String (List ℚ)
  | [] => .ok []
  | c :: cs =>
    if W = 0 then .error "ZeroDivisionError"
    else
      match allocate W D cs with
      | .error e => .error e
      | .ok rest => .ok (((c : ℚ) / (W : ℚ)) * D :: rest)

/-- Embeds `scene_durations` of the script (Step 3), with `D` the
narration audio duration. -/
def scene_durations (scenes : List Scene) (D : ℚ) : Except String (List ℚ) :=
  allocate (total_words scenes) D (scene_word_counts scenes)

/-- A moviepy clip, abstracted to the one attribute the embedded
arithmetic observes: its duration in seconds. -/
structure VClip where
  duration : ℚ
deriving DecidableEq, Repr

/-- Embeds clip.set_duration(d). -/
def VClip.set_duration (c : VClip) (d : ℚ) : VClip := ⟨d⟩

/-- Embeds clip.loop with a target duration d. -/
def VClip.loop_to (c : VClip) (d : ℚ) : VClip := ⟨d⟩

/-- Embeds `concatenate_videoclips`: the durations add up. -/
def concatenate_videoclips (cs : List VClip) : VClip :=
  ⟨(cs.map VClip.duration).sum⟩

/-- Embeds `CompositeVideoClip` over a nonempty clip list: the duration is
the maximum of the component durations. -/
def CompositeVideoClip (first : VClip) (rest : List VClip) : VClip :=
  ⟨(rest.map VClip.duration).foldr max first.duration⟩

/-- The sorted, image-extension-filtered listing of the image directory of
a scene, as built at the top of the scene-clips loop. -/
def listImages (files : List String) : List String :=
  pySorted (files.filter (fun f => isImageFile f))

/-- Observable outcome of one iteration of the scene-clips loop: the
durations given to the per-image clips, and the duration of the composed
scene clip. -/
structure SceneClip where
  imgDurations : List ℚ
  duration : ℚ
deriving DecidableEq, Repr

/-- One iteration of the Step 4 loop for scene index `idx` (0-based) whose
image directory listing is `files` and allocated duration is `duration`:
raises when no image file is present, otherwise builds the slideshow with
`per_img_duration = max(duration / len(images), 2.5)`, stretches the
concatenation to `duration`, and composites it with the subtitle clip of
the same duration. -/
def make_scene_clip (idx : Nat) (files : List String) (duration : ℚ) :
    Except String SceneClip :=
  let images := listImages files
  if images = [] then
    Except.error ("No images found for scene " ++ toString (idx + 1))
  else
    let per_img_duration := max (duration / (images.length : ℚ)) (5 / 2)
    let img_clips : List VClip := images.map (fun _ => ⟨per_img_duration⟩)
    let scene_video := (concatenate_videoclips img_clips).set_duration duration
    let subtitle : VClip := ⟨duration⟩
    let scene_with_text := CompositeVideoClip scene_video [subtitle]
    Except.ok { imgDurations := img_clips.map VClip.duration
                duration := scene_with_text.duration }

/-- The Step 4 loop `for idx, (scene, duration) in enumerate(zip(scenes,
scene_durations))`: `filess` maps scene index to the image-directory
listing (the directory exists for every scene because `download_images`
creates it unconditionally; a missing listing is the empty directory).
The first failing scene raises and aborts the loop. -/
def scene_clips_loop (filess : List (List String)) :
    Nat → List (Scene × ℚ) → Except String (List SceneClip)
  | _, [] => .ok []
  | idx, (sc, d) :: rest =>
    match make_scene_clip idx (filess.getD idx []) d with
    | .error e => .error e
    | .ok clip =>
      match scene_clips_loop filess (idx + 1) rest with
      | .error e => .error e
      | .ok clips => .ok (clip :: clips)

/-- The final exported video, abstracted to its duration. -/
structure Video where
  duration : ℚ
deriving DecidableEq, Repr

/-- Steps 3-8 of one scene-set iteration, from the allocated durations to
the exported video: build the scene clips, concatenate them and pin the
result to the narration duration, loop the background overlay to the
narration duration, composite, and export.  `tts_duration` is the
duration of the narration audio and `overlay_src` the clip of the fixed
background video file; audio mixing (Step 7) does not change the visual
duration. -/
def process_scene_set (scenes : List Scene) (imageFiles : List (List String))
    (tts_duration : ℚ) (overlay_src : VClip) : Except String Video :=
  match scene_durations scenes tts_duration with
  | .error e => .error e
  | .ok ds =>
    match scene_clips_loop imageFiles 0 (scenes.zip ds) with
    | .error e => .error e
    | .ok clips =>
      let scene_vclips : List VClip := clips.map (fun c => ⟨c.duration⟩)
      let video_without_audio :=
        (concatenate_videoclips scene_vclips).set_duration tts_duration
      let overlay_video := (overlay_src.loop_to tts_duration).set_duration tts_duration
      let final_visual := CompositeVideoClip overlay_video [video_without_audio]
      Except.ok { duration := final_visual.duration }

/-- Filesystem state, abstracted to the set of existing directories. -/
structure FS where
  dirs : List String
deriving DecidableEq, Repr

/-- Embeds os.makedirs with exist_ok set. -/
def makedirs (fs : FS) (d : String) : FS :=
  if d ∈ fs.dirs then fs else ⟨d :: fs.dirs⟩

/-- Embeds shutil.rmtree: the directory no longer exists afterwards. -/
def rmtree (fs : FS) (d : String) : FS := ⟨fs.dirs.filter (fun x => x ≠ d)⟩

/-- Per-scene-set temporary image directory, images_ then the base name. -/
def IMAGE_DIR (base : String) : String := "images_" ++ base

/-- Per-scene-set temporary audio directory, audio_ then the base name. -/
def AUDIO_DIR (base : String) : String := "audio_" ++ base

/-- Per-scene-set output directory under the output tree. -/
def OUTPUT_SUBDIR (base : String) : String := "output/" ++ base

/-- Directory effect of one scene-set iteration: the three `os.makedirs`
calls at the top, then — only when the iteration ran to completion
(`result` is `ok`, the video was exported) — the two `shutil.rmtree`
calls of Step 9.  An exception propagates out before the cleanup. -/
def iteration_dirs (base : String) (fs : FS) (result : Except String Video) : FS :=
  let fs1 := makedirs (makedirs (makedirs fs (IMAGE_DIR base)) (AUDIO_DIR base))
    (OUTPUT_SUBDIR base)
  match result with
  | .ok _ => rmtree (rmtree fs1 (IMAGE_DIR base)) (AUDIO_DIR base)
  | .error _ => fs1

/-! ### Helper lemmas -/

/-- When the total word count is nonzero, the allocation comprehension
returns the list of exact ratios. -/
theorem allocate_ok (W : Nat) (D : ℚ) (hW : W ≠ 0) (l : List Nat) :
    allocate W D l = .ok (l.map (fun c : ℕ => ((c : ℚ) / (W : ℚ)) * D)) := by
  induction l with
  | nil => rfl
  | cons c cs ih => simp [allocate, hW, ih]

/-- Summing the exact ratios factors the total out. -/
theorem map_ratio_sum (W : Nat) (D : ℚ) (l : List Nat) :
    (l.map (fun c : ℕ => ((c : ℚ) / (W : ℚ)) * D)).sum = ((l.sum : ℚ) / (W : ℚ)) * D := by
  induction l with
  | nil => simp
  | cons c cs ih =>
    simp only [List.map_cons, List.sum_cons, ih]
    push_cast
    ring

/-- A scene whose directory listing has no image file makes
`make_scene_clip` raise. -/
theorem make_scene_clip_no_images (idx : Nat) (files : List String) (d : ℚ)
    (h : files.filter (fun f => isImageFile f) = []) :
    make_scene_clip idx files d =
      Except.error ("No images found for scene " ++ toString (idx + 1)) := by
  unfold make_scene_clip listImages
  rw [h]
  rfl

/-- With a nonempty scene list whose total word count is zero, the first
allocation division raises `ZeroDivisionError`. -/
theorem scene_durations_error_of_total_zero (scenes : List Scene) (D : ℚ)
    (hne : scenes ≠ []) (h : total_words scenes = 0) :
    scene_durations scenes D = Except.error "ZeroDivisionError" := by
  cases scenes with
  | nil => exact absurd rfl hne
  | cons s ss =>
    simp [scene_durations, scene_word_counts, scene_texts, allocate, h]

/-- The Step 4 loop raises as soon as any of its scenes has an imageless
directory (an earlier scene may raise first; either way no clip list is
produced). -/
theorem scene_clips_loop_aborts (filess : List (List String))
    (pairs : List (Scene × ℚ)) (start i : Nat) (hi : i < pairs.length)
    (h : (filess.getD (start + i) []).filter (fun f => isImageFile f) = []) :
    exceptIsOk (scene_clips_loop filess start pairs) = false := by
  induction pairs generalizing start i with
  | nil => simp at hi
  | cons p rest ih =>
    obtain ⟨sc, d⟩ := p
    cases i with
    | zero =>
      have hmk := make_scene_clip_no_images start (filess.getD start []) d
        (by simpa using h)
      simp only [scene_clips_loop]
      rw [hmk]
      rfl
    | succ j =>
      have hj : j < rest.length := by simpa using Nat.lt_of_succ_lt_succ hi
      have h' : (filess.getD (start + 1 + j) []).filter (fun f => isImageFile f) = [] := by
        rw [show start + 1 + j = start + (j + 1) by omega]
        exact h
      have hrec := ih (start + 1) j hj h'
      simp only [scene_clips_loop]
      cases hmk : make_scene_clip start (filess.getD start []) d with
      | error e => rfl
      | ok clip =>
        cases hloop : scene_clips_loop filess (start + 1) rest with
        | error e => rfl
        | ok clips =>
          rw [hloop] at hrec
          simp [exceptIsOk] at hrec

/-! ### Claims -/

/-- C1: for every scene set with positive total word count, the per-scene
allocated durations `(count / total_words) * total_audio_duration` are
produced without error and sum exactly to the total narration audio
duration, in exact rational arithmetic. -/
theorem scene_durations_sum_eq (scenes : List Scene) (D : ℚ)
    (h : 0 < total_words scenes) :
    scene_durations scenes D =
      Except.ok ((scene_word_counts scenes).map
        (fun c : ℕ => ((c : ℚ) / (total_words scenes : ℚ)) * D)) ∧
    ((scene_word_counts scenes).map
      (fun c : ℕ => ((c : ℚ) / (total_words scenes : ℚ)) * D)).sum = D := by
  have hW : total_words scenes ≠ 0 := h.ne'
  constructor
  · exact allocate_ok _ _ hW _
  · rw [map_ratio_sum]
    have hsum : ((scene_word_counts scenes).sum : ℚ) = (total_words scenes : ℚ) := rfl
    rw [hsum, div_self (by exact_mod_cast hW), one_mul]

theorem scene_durations_sum_eq_witness :
    0 < total_words [⟨"ab", "k", "s"⟩, ⟨"cd ef", "k", "s"⟩] ∧
    (scene_durations [⟨"ab", "k", "s"⟩, ⟨"cd ef", "k", "s"⟩] 6 =
      Except.ok ((scene_word_counts [⟨"ab", "k", "s"⟩, ⟨"cd ef", "k", "s"⟩]).map
        (fun c : ℕ =>
          ((c : ℚ) / (total_words [⟨"ab", "k", "s"⟩, ⟨"cd ef", "k", "s"⟩] : ℚ)) * 6)) ∧
     ((scene_word_counts [⟨"ab", "k", "s"⟩, ⟨"cd ef", "k", "s"⟩]).map
        (fun c : ℕ =>
          ((c : ℚ) / (total_words [⟨"ab", "k", "s"⟩, ⟨"cd ef", "k", "s"⟩] : ℚ)) * 6)).sum = 6) :=
  ⟨by decide, scene_durations_sum_eq [⟨"ab", "k", "s"⟩, ⟨"cd ef", "k", "s"⟩] 6 (by decide)⟩

/-- C2: duration allocation is proportional to word count: whenever the
allocation succeeds on a positive total, the durations cross-multiply
with the word counts, `ds[i] * count[j] = ds[j] * count[i]`. -/
theorem scene_durations_proportional (scenes : List Scene) (D : ℚ) (ds : List ℚ)
    (h : 0 < total_words scenes)
    (hds : scene_durations scenes D = Except.ok ds)
    (i j : Nat) (hi : i < ds.length) (hj : j < ds.length) :
    ds[i] * ((scene_word_counts scenes).getD j 0 : ℚ)
      = ds[j] * ((scene_word_counts scenes).getD i 0 : ℚ) := by
  have hW : total_words scenes ≠ 0 := h.ne'
  rw [scene_durations, allocate_ok _ _ hW] at hds
  injection hds with hds
  subst hds
  have hi' : i < (scene_word_counts scenes).length := by simpa using hi
  have hj' : j < (scene_word_counts scenes).length := by simpa using hj
  rw [List.getElem_map, List.getElem_map,
    List.getD_eq_getElem _ _ hj', List.getD_eq_getElem _ _ hi']
  ring

theorem scene_durations_proportional_witness :
    ([(2 : ℚ), 4])[0] * ((scene_word_counts [⟨"ab", "k", "s"⟩, ⟨"cd ef", "k", "s"⟩]).getD 1 0 : ℚ)
      = ([(2 : ℚ), 4])[1] * ((scene_word_counts [⟨"ab", "k", "s"⟩, ⟨"cd ef", "k", "s"⟩]).getD 0 0 : ℚ) :=
  scene_durations_proportional [⟨"ab", "k", "s"⟩, ⟨"cd ef", "k", "s"⟩] 6 [2, 4]
    (by decide)
    (by
      have hc : scene_word_counts [⟨"ab", "k", "s"⟩, ⟨"cd ef", "k", "s"⟩] = [1, 2] := by decide
      have hW : total_words [⟨"ab", "k", "s"⟩, ⟨"cd ef", "k", "s"⟩] = 3 := by decide
      rw [scene_durations, hc, hW]
      norm_num [allocate])
    0 1 (by decide) (by decide)

/-- C3: a scene whose image directory contains zero image files (no
`.jpg`, `.jpeg`, or `.png` entries) makes the compositing step raise
an Exception naming the 1-based scene index instead of producing an
empty clip. -/
theorem make_scene_clip_zero_images_raises (idx : Nat) (files : List String) (d : ℚ)
    (h : files.filter (fun f => isImageFile f) = []) :
    make_scene_clip idx files d =
      Except.error ("No images found for scene " ++ toString (idx + 1)) :=
  make_scene_clip_no_images idx files d h

theorem make_scene_clip_zero_images_raises_witness :
    make_scene_clip 0 ["notes.txt"] 1 =
      Except.error ("No images found for scene " ++ toString (0 + 1)) :=
  make_scene_clip_zero_images_raises 0 ["notes.txt"] 1 (by decide)

/-- C4 counterexample: a scene with empty text but an image present does
not abort the scene set; processing completes and exports a video. -/
theorem empty_text_scene_processes_ok :
    pySplit "" = [] ∧
    process_scene_set [⟨"hello world", "sky", "s1"⟩, ⟨"", "sea", "s2"⟩]
      [["a.jpg"], ["b.jpg"]] 10 ⟨7⟩ = Except.ok ⟨10⟩ := by
  constructor
  · rfl
  · have hc : scene_word_counts [⟨"hello world", "sky", "s1"⟩, ⟨"", "sea", "s2"⟩]
        = [2, 0] := by decide
    have hW : total_words [⟨"hello world", "sky", "s1"⟩, ⟨"", "sea", "s2"⟩] = 2 := by
      decide
    have ha : listImages ["a.jpg"] = ["a.jpg"] := by decide
    have hb : listImages ["b.jpg"] = ["b.jpg"] := by decide
    simp [process_scene_set, scene_durations, hc, hW, allocate, scene_clips_loop,
      make_scene_clip, ha, hb, concatenate_videoclips, CompositeVideoClip,
      VClip.set_duration, VClip.loop_to]

/-- C4 (amended): a scene set in which some scene has zero image files
aborts with an exception before any video is produced (either the
ZeroDivisionError of the allocation when the total word count is zero,
or the Exception of the compositing loop); empty text alone does not
abort. -/
theorem process_scene_set_aborts_on_zero_images (scenes : List Scene)
    (imageFiles : List (List String)) (D : ℚ) (ov : VClip) (i : Nat)
    (hi : i < scenes.length)
    (h : (imageFiles.getD i []).filter (fun f => isImageFile f) = []) :
    exceptIsOk (process_scene_set scenes imageFiles D ov) = false := by
  by_cases hW : total_words scenes = 0
  · have hne : scenes ≠ [] := by
      intro hnil
      subst hnil
      simp at hi
    have hds := scene_durations_error_of_total_zero scenes D hne hW
    simp only [process_scene_set]
    rw [hds]
    rfl
  · have hlen : (scenes.zip ((scene_word_counts scenes).map
        (fun c : ℕ => ((c : ℚ) / (total_words scenes : ℚ)) * D))).length
        = scenes.length := by
      simp [scene_word_counts, scene_texts]
    have hloop := scene_clips_loop_aborts imageFiles
      (scenes.zip ((scene_word_counts scenes).map
        (fun c : ℕ => ((c : ℚ) / (total_words scenes : ℚ)) * D)))
      0 i (by rw [hlen]; exact hi) (by simpa using h)
    simp only [process_scene_set]
    split
    · rfl
    · next ds hds0 =>
      rw [scene_durations, allocate_ok _ _ hW] at hds0
      injection hds0 with hds1
      subst hds1
      split
      · rfl
      · next clips hres =>
        rw [hres] at hloop
        simp [exceptIsOk] at hloop

theorem process_scene_set_aborts_on_zero_images_witness :
    exceptIsOk (process_scene_set [⟨"hello", "k", "s"⟩] [[]] 3 ⟨7⟩) = false :=
  process_scene_set_aborts_on_zero_images [⟨"hello", "k", "s"⟩] [[]] 3 ⟨7⟩ 0
    (by decide) (by decide)

/-- C5: `generate_tts` raises the TTS-failed exception exactly when the
reason of the synthesis result is not `SynthesizingAudioCompleted`, and
returns normally exactly on that success reason. -/
theorem generate_tts_raises_iff (r : ResultReason) :
    (generate_tts r = Except.ok () ↔ r = ResultReason.SynthesizingAudioCompleted) ∧
    (generate_tts r = Except.error ("TTS failed: " ++ r.describe) ↔
      r ≠ ResultReason.SynthesizingAudioCompleted) := by
  cases r <;> simp [generate_tts, ResultReason.describe]

/-- C6: a query whose search response has an empty photo list makes
`download_images` log the failure and return normally, writing no image
file and raising nothing (and there is no retry: this single call is the
only download attempt for the scene). -/
theorem download_images_empty_photos (query : String) :
    download_images query [] =
      Except.ok { logs := ["No images found for: " ++ query], files := [] } := rfl

/-- C7: in a successfully composited scene, every per-image clip duration
equals `max(duration / len(images), 2.5)` and is therefore at least 2.5
seconds. -/
theorem per_image_duration_floor (idx : Nat) (files : List String) (d : ℚ)
    (clip : SceneClip) (x : ℚ)
    (h : make_scene_clip idx files d = Except.ok clip)
    (hx : x ∈ clip.imgDurations) :
    x = max (d / ((listImages files).length : ℚ)) (5 / 2) ∧ (5 / 2 : ℚ) ≤ x := by
  simp only [make_scene_clip] at h
  by_cases hnil : listImages files = []
  · rw [if_pos hnil] at h
    simp at h
  · rw [if_neg hnil] at h
    injection h with h
    subst h
    simp only [List.map_map] at hx
    rw [List.mem_map] at hx
    obtain ⟨a, ha, hax⟩ := hx
    subst hax
    exact ⟨rfl, le_max_right _ _⟩

theorem per_image_duration_floor_witness :
    (10 : ℚ) = max ((10 : ℚ) / ((listImages ["a.jpg"]).length : ℚ)) (5 / 2) ∧
      (5 / 2 : ℚ) ≤ 10 :=
  per_image_duration_floor 0 ["a.jpg"] 10 ⟨[10], 10⟩ 10
    (by
      have himg : listImages ["a.jpg"] = ["a.jpg"] := by decide
      simp [make_scene_clip, himg, concatenate_videoclips, CompositeVideoClip,
        VClip.set_duration]
      norm_num)
    (by norm_num)

/-- C8: after a scene-set iteration that exported its video, the temporary
image directory and audio directory have been removed and no longer
exist. -/
theorem temp_dirs_removed_on_success (base : String) (fs : FS) (v : Video) :
    IMAGE_DIR base ∉ (iteration_dirs base fs (Except.ok v)).dirs ∧
    AUDIO_DIR base ∉ (iteration_dirs base fs (Except.ok v)).dirs := by
  simp [iteration_dirs, rmtree, List.mem_filter]

/-- C9 counterexample: for the empty scene list the allocation
comprehension iterates zero times, performs no division, and returns the
empty list instead of raising `ZeroDivisionError`. -/
theorem scene_durations_empty_list_ok :
    scene_durations ([] : List Scene) 7 = Except.ok [] := rfl

/-- C9 (amended): the allocation step raises `ZeroDivisionError` exactly
when the scene list is nonempty and the text of every scene splits into
zero words (zero total word count); on the empty list no division is
evaluated. -/
theorem scene_durations_zero_division_iff (scenes : List Scene) (D : ℚ) :
    scene_durations scenes D = Except.error "ZeroDivisionError" ↔
      scenes ≠ [] ∧ total_words scenes = 0 := by
  constructor
  · intro h
    by_cases hW : total_words scenes = 0
    · refine ⟨?_, hW⟩
      intro hnil
      subst hnil
      simp [scene_durations, scene_word_counts, scene_texts, allocate] at h
    · rw [scene_durations, allocate_ok _ _ hW] at h
      simp at h
  · rintro ⟨hne, hz⟩
    exact scene_durations_error_of_total_zero scenes D hne hz

/-- C10: a successful scene-set run exports a video whose duration equals
the narration audio duration: both the concatenated scene video and the
looped overlay are pinned to the TTS duration, so the 2.5s per-image
floor never lengthens the final video. -/
theorem final_video_duration_eq_tts (scenes : List Scene)
    (imageFiles : List (List String)) (D : ℚ) (ov : VClip) (v : Video)
    (h : process_scene_set scenes imageFiles D ov = Except.ok v) :
    v.duration = D := by
  simp only [process_scene_set] at h
  split at h
  · simp at h
  · split at h
    · simp at h
    · injection h with h
      subst h
      simp [CompositeVideoClip, VClip.set_duration, VClip.loop_to,
        concatenate_videoclips, max_self]

theorem final_video_duration_eq_tts_witness :
    Video.duration ⟨4⟩ = 4 :=
  final_video_duration_eq_tts [⟨"hi there", "k", "s"⟩] [["a.jpg"]] 4 ⟨9⟩ ⟨4⟩
    (by
      have hc : scene_word_counts [⟨"hi there", "k", "s"⟩] = [2] := by decide
      have hW : total_words [⟨"hi there", "k", "s"⟩] = 2 := by decide
      have ha : listImages ["a.jpg"] = ["a.jpg"] := by decide
      simp [process_scene_set, scene_durations, hc, hW, allocate, scene_clips_loop,
        make_scene_clip, ha, concatenate_videoclips, CompositeVideoClip,
        VClip.set_duration, VClip.loop_to])
